import Mathlib

/-!
Shallow embedding of the propulsion/stabilization controller
(src/js/systems/AntiGravitySystem.js) and the sensor-fusion / pilot-workload
parts of the control system (src/js/systems/ControlSystem.js) of
project_manta, together with proofs about the claims on their behavior.

JavaScript numbers are modelled by exact rationals (ℚ); the gyroscopic
torque clamp, whose magnitude test uses a Euclidean length (a square root),
is modelled over ℝ.
-/

namespace ProjectManta

/-! ### AntiGravitySystem: constants from the constructor -/

def baseMass : ℚ := 127000

def massReduction : ℚ := 892 / 1000

def activationTime : ℚ := 3

def maxHeat : ℚ := 100

/-- State of the AntiGravitySystem controller together with the mass field of
the attached physics body (the only body field the controller non-gyro
code writes).  The gyroscopic-stabilization step writes only the body
torque and angular velocity, never any of these fields; it is modelled
separately below for the torque claim. -/
structure AGState where
  plasmaPower : ℚ
  targetPlasmaPower : ℚ
  isActivating : Bool
  isActive : Bool
  currentHeat : ℚ
  powerConsumption : ℚ
  bodyMass : ℚ
deriving DecidableEq, Repr

/-- Constructor state: plasmaPower 0, target 0, flags false, heat 0. -/
def initState : AGState :=
  { plasmaPower := 0
    targetPlasmaPower := 0
    isActivating := false
    isActive := false
    currentHeat := 0
    powerConsumption := 0
    bodyMass := baseMass }

/-- `activate()`: no-op when already activating or active; otherwise sets
`isActivating` and target power 1. -/
def activate (s : AGState) : AGState :=
  if s.isActivating || s.isActive then s
  else { s with isActivating := true, targetPlasmaPower := 1 }

/-- `deactivate()`: no-op when idle; otherwise clears both flags and zeroes
the target power. -/
def deactivate (s : AGState) : AGState :=
  if !s.isActivating && !s.isActive then s
  else { s with isActivating := false, isActive := false, targetPlasmaPower := 0 }

/-- `updatePlasmaPower(deltaTime)`: first-order ramp toward the target,
clamped to [0,1], followed by the two level-triggered state transitions. -/
def updatePlasmaPower (s : AGState) (dt : ℚ) : AGState :=
  let powerChangeRate := 1 / activationTime
  let powerDelta := (s.targetPlasmaPower - s.plasmaPower) * powerChangeRate * dt
  let p := max 0 (min 1 (s.plasmaPower + powerDelta))
  let s1 := { s with plasmaPower := p }
  let s2 :=
    if 95 / 100 < s1.plasmaPower ∧ s1.isActivating then
      { s1 with isActivating := false, isActive := true }
    else s1
  if s2.plasmaPower < 5 / 100 ∧ ¬s2.isActivating then
    { s2 with isActive := false }
  else s2

/-- `updateMass()`: writes `baseMass * (1 - plasmaPower * massReduction)` to
the body mass and updates power consumption. -/
def updateMass (s : AGState) : AGState :=
  let massReductionFactor := s.plasmaPower * massReduction
  let currentMass := baseMass * (1 - massReductionFactor)
  { s with bodyMass := currentMass, powerConsumption := s.plasmaPower * 1000 }

/-- `updateThermalManagement(deltaTime)`: quadratic heat gain, proportional
dissipation, clamp to [0, maxHeat], then the thermal throttle on the target
power when heat exceeds 90% of maxHeat. -/
def updateThermalManagement (s : AGState) (dt : ℚ) : AGState :=
  let heatGenerated := s.plasmaPower * s.plasmaPower * 50 * dt
  let h1 := s.currentHeat + heatGenerated
  let heatDissipated := h1 * (1 / 10) * dt
  let h2 := max 0 (min maxHeat (h1 - heatDissipated))
  let s1 := { s with currentHeat := h2 }
  if maxHeat * (9 / 10) < s1.currentHeat then
    { s1 with targetPlasmaPower := s1.targetPlasmaPower * (95 / 100) }
  else s1

/-- `update(deltaTime)` in the order of the source: plasma power, mass,
thermal management.  (`updateGyroscopicStabilization`, `updateVisualEffects`
and `updateUI` write none of the fields of `AGState`.) -/
def update (s : AGState) (dt : ℚ) : AGState :=
  updateThermalManagement (updateMass (updatePlasmaPower s dt)) dt

/-- `getCurrentMass()`. -/
def getCurrentMass (s : AGState) : ℚ :=
  let massReductionFactor := s.plasmaPower * massReduction
  baseMass * (1 - massReductionFactor)

/-- `emergencyShutdown()`: zeroes both power fields, clears both flags and
resets the body mass to `baseMass`; touches nothing else. -/
def emergencyShutdown (s : AGState) : AGState :=
  { s with
    isActivating := false
    isActive := false
    targetPlasmaPower := 0
    plasmaPower := 0
    bodyMass := baseMass }

/-- One externally observable operation on the controller. -/
inductive AGOp where
  | activate : AGOp
  | deactivate : AGOp
  | update : ℚ → AGOp
deriving DecidableEq, Repr

def applyOp (s : AGState) : AGOp → AGState
  | .activate => activate s
  | .deactivate => deactivate s
  | .update dt => update s dt

def runOps (s : AGState) (ops : List AGOp) : AGState :=
  ops.foldl applyOp s

/-! ### Gyroscopic stabilization torque (updateGyroscopicStabilization)

The torque computation compares a Euclidean length (a square root) against
`maxTorque` and rescales, so it is modelled over ℝ. -/

noncomputable section

def gyroStrength : ℝ := 1

def gyroMaxTorque : ℝ := 10000

/-- The raw counter-torque of `updateGyroscopicStabilization`: per-axis
`-angularVelocity * (plasmaPower * strength)`, with the y axis at half
strength. -/
def gyroRawTorque (p wx wy wz : ℝ) : ℝ × ℝ × ℝ :=
  let stabilizationStrength := p * gyroStrength
  (-wx * stabilizationStrength, -wy * stabilizationStrength * (1 / 2),
    -wz * stabilizationStrength)

/-- Euclidean length of a torque vector (`CANNON.Vec3.length`). -/
def norm3 (v : ℝ × ℝ × ℝ) : ℝ :=
  Real.sqrt (v.1 ^ 2 + v.2.1 ^ 2 + v.2.2 ^ 2)

/-- The torque clamp: when the length exceeds `maxTorque`, each component is
scaled by `maxTorque / length`. -/
def gyroClampTorque (v : ℝ × ℝ × ℝ) : ℝ × ℝ × ℝ :=
  if gyroMaxTorque < norm3 v then
    (gyroMaxTorque / norm3 v * v.1, gyroMaxTorque / norm3 v * v.2.1,
      gyroMaxTorque / norm3 v * v.2.2)
  else v

/-- The torque actually added to the body: nothing when `plasmaPower < 0.1`
(the early return), otherwise the clamped counter-torque. -/
def gyroAppliedTorque (p wx wy wz : ℝ) : ℝ × ℝ × ℝ :=
  if p < 1 / 10 then (0, 0, 0)
  else gyroClampTorque (gyroRawTorque p wx wy wz)

end

/-! ### ControlSystem: Kalman filter and PINN workload model -/

def kalmanQ : ℚ := 1 / 100

def kalmanR : ℚ := 1 / 10

/-- Filter state `{x, y, z, vx, vy, vz}` of the ControlSystem constructor
(noise parameters `Q`, `R` are the constants above and are never written). -/
structure KalmanState where
  x : ℚ
  y : ℚ
  z : ℚ
  vx : ℚ
  vy : ℚ
  vz : ℚ
deriving DecidableEq, Repr

/-- `updateKalmanFilter(alpha, beta, gamma)`: predict with the fixed
`dt = 0.016`, then correct with gain `k = Q / (Q + R)` on each axis; the
velocity components are not written. -/
def updateKalmanFilter (s : KalmanState) (alpha beta gamma : ℚ) : KalmanState :=
  let dt : ℚ := 16 / 1000
  let x1 := s.x + s.vx * dt
  let y1 := s.y + s.vy * dt
  let z1 := s.z + s.vz * dt
  let kx := kalmanQ / (kalmanQ + kalmanR)
  let ky := kalmanQ / (kalmanQ + kalmanR)
  let kz := kalmanQ / (kalmanQ + kalmanR)
  { s with
    x := x1 + kx * (alpha - x1)
    y := y1 + ky * (beta - y1)
    z := z1 + kz * (gamma - z1) }

/-- PINN (pilot workload) state of the ControlSystem constructor. -/
structure PinnState where
  stressLevel : ℚ
  adaptiveSensitivity : ℚ
  learningRate : ℚ
  baselinePerformance : ℚ
deriving DecidableEq, Repr

def initPinn : PinnState :=
  { stressLevel := 0
    adaptiveSensitivity := 1
    learningRate := 1 / 1000
    baselinePerformance := 1 }

/-- `updatePINN(deltaTime)` with the input intensity
(`getInputIntensity()`) passed as a parameter: low-pass the stress toward
`min(intensity * 0.1, 1.0)`, derive the adaptive sensitivity, then, only
while the updated stress is below 0.5, grow `baselinePerformance` by
`learningRate * deltaTime`, capped at 1.2. -/
def updatePINN (s : PinnState) (dt intensity : ℚ) : PinnState :=
  let targetStress := min (intensity * (1 / 10)) 1
  let stress1 := s.stressLevel + (targetStress - s.stressLevel) * dt * 2
  let stressFactor := 1 - stress1 * (3 / 10)
  let s1 := { s with
    stressLevel := stress1
    adaptiveSensitivity := s.baselinePerformance * stressFactor }
  if s1.stressLevel < 1 / 2 then
    { s1 with baselinePerformance := min (s1.baselinePerformance + s1.learningRate * dt) (12 / 10) }
  else s1

/-- A run of the workload model: one `(dt, intensity)` pair per tick. -/
def pinnRun (s : PinnState) (ticks : List (ℚ × ℚ)) : PinnState :=
  ticks.foldl (fun t pr => updatePINN t pr.1 pr.2) s

/-- The C1 activation run: `activate()` from the constructor state, then
thirty ticks of 0.1 simulated seconds. -/
def activationTicks : List ℚ := List.replicate 30 (1 / 10)

def activationRun : AGState := activationTicks.foldl update (activate initState)

/-! ### Projection lemmas for the controller steps -/

lemma updatePlasmaPower_power (s : AGState) (dt : ℚ) :
    (updatePlasmaPower s dt).plasmaPower =
      max 0 (min 1 (s.plasmaPower + (s.targetPlasmaPower - s.plasmaPower) * (1 / activationTime) * dt)) := by
  unfold updatePlasmaPower
  dsimp only
  split <;> split <;> rfl

lemma updatePlasmaPower_target (s : AGState) (dt : ℚ) :
    (updatePlasmaPower s dt).targetPlasmaPower = s.targetPlasmaPower := by
  unfold updatePlasmaPower
  dsimp only
  split <;> split <;> rfl

lemma updatePlasmaPower_heat (s : AGState) (dt : ℚ) :
    (updatePlasmaPower s dt).currentHeat = s.currentHeat := by
  unfold updatePlasmaPower
  dsimp only
  split <;> split <;> rfl

lemma updateMass_power (s : AGState) : (updateMass s).plasmaPower = s.plasmaPower := rfl

lemma updateMass_target (s : AGState) : (updateMass s).targetPlasmaPower = s.targetPlasmaPower := rfl

lemma updateMass_heat (s : AGState) : (updateMass s).currentHeat = s.currentHeat := rfl

lemma updateThermal_power (s : AGState) (dt : ℚ) :
    (updateThermalManagement s dt).plasmaPower = s.plasmaPower := by
  unfold updateThermalManagement
  dsimp only
  split <;> rfl

lemma updateThermal_heat (s : AGState) (dt : ℚ) :
    (updateThermalManagement s dt).currentHeat =
      max 0 (min maxHeat (s.currentHeat + s.plasmaPower * s.plasmaPower * 50 * dt -
        (s.currentHeat + s.plasmaPower * s.plasmaPower * 50 * dt) * (1 / 10) * dt)) := by
  unfold updateThermalManagement
  dsimp only
  split <;> rfl

lemma updateThermal_target (s : AGState) (dt : ℚ) :
    (updateThermalManagement s dt).targetPlasmaPower =
      if maxHeat * (9 / 10) < (updateThermalManagement s dt).currentHeat then
        s.targetPlasmaPower * (95 / 100)
      else s.targetPlasmaPower := by
  rw [updateThermal_heat]
  unfold updateThermalManagement
  dsimp only
  split <;> rfl

lemma update_power (s : AGState) (dt : ℚ) :
    (update s dt).plasmaPower = (updatePlasmaPower s dt).plasmaPower := by
  unfold update
  rw [updateThermal_power, updateMass_power]

lemma update_target (s : AGState) (dt : ℚ) :
    (update s dt).targetPlasmaPower =
      if maxHeat * (9 / 10) < (update s dt).currentHeat then
        s.targetPlasmaPower * (95 / 100)
      else s.targetPlasmaPower := by
  unfold update
  rw [updateThermal_target, updateMass_target, updatePlasmaPower_target]

lemma updateThermal_heat_mem (s : AGState) (dt : ℚ) :
    0 ≤ (updateThermalManagement s dt).currentHeat ∧
      (updateThermalManagement s dt).currentHeat ≤ maxHeat := by
  rw [updateThermal_heat]
  exact ⟨le_max_left _ _, max_le (by norm_num [maxHeat]) (min_le_left _ _)⟩

lemma activate_heat (s : AGState) : (activate s).currentHeat = s.currentHeat := by
  unfold activate
  split <;> rfl

lemma deactivate_heat (s : AGState) : (deactivate s).currentHeat = s.currentHeat := by
  unfold deactivate
  split <;> rfl

lemma update_heat_mem (s : AGState) (dt : ℚ) :
    0 ≤ (update s dt).currentHeat ∧ (update s dt).currentHeat ≤ maxHeat :=
  updateThermal_heat_mem _ _

/-! ### Claim C3: heat stays within [0, maxHeat] -/

lemma runOps_heat_inv (ops : List AGOp) :
    ∀ s : AGState, 0 ≤ s.currentHeat → s.currentHeat ≤ maxHeat →
      0 ≤ (runOps s ops).currentHeat ∧ (runOps s ops).currentHeat ≤ maxHeat := by
  induction ops with
  | nil => exact fun s h0 h1 => ⟨h0, h1⟩
  | cons op rest ih =>
    intro s h0 h1
    have hstep : 0 ≤ (applyOp s op).currentHeat ∧ (applyOp s op).currentHeat ≤ maxHeat := by
      cases op with
      | activate =>
        rw [applyOp, activate_heat]
        exact ⟨h0, h1⟩
      | deactivate =>
        rw [applyOp, deactivate_heat]
        exact ⟨h0, h1⟩
      | update dt => exact update_heat_mem _ _
    have : runOps s (op :: rest) = runOps (applyOp s op) rest := rfl
    rw [this]
    exact ih _ hstep.1 hstep.2

/-- Claim C3: starting from the initial state, for every sequence of
activate/deactivate calls interleaved with update(dt) ticks (each dt ≥ 0),
currentHeat remains within [0, maxHeat] after every operation (every such
prefix of operations is itself a quantified sequence). -/
theorem c3_heat_invariant (ops : List AGOp)
    (hdt : ∀ dt : ℚ, AGOp.update dt ∈ ops → 0 ≤ dt) :
    0 ≤ (runOps initState ops).currentHeat ∧
      (runOps initState ops).currentHeat ≤ maxHeat :=
  runOps_heat_inv ops initState (le_refl 0) (by norm_num [initState, maxHeat])

/-- Witness for C3 at the concrete sequence [activate, update 1]. -/
theorem c3_heat_invariant_witness :
    0 ≤ (runOps initState [AGOp.activate, AGOp.update 1]).currentHeat ∧
      (runOps initState [AGOp.activate, AGOp.update 1]).currentHeat ≤ maxHeat :=
  c3_heat_invariant [AGOp.activate, AGOp.update 1]
    (by intro dt h; simp at h; subst h; norm_num)

/-! ### Claim C4: mass is a pure function of plasmaPower -/

/-- Claim C4: `currentMass` always equals
`baseMass * (1 - plasmaPower * massReduction)`; `updateMass` writes exactly
`getCurrentMass` to the body; and any two states with equal plasmaPower
report and write identical masses, regardless of history. -/
theorem c4_mass_pure (s t : AGState) :
    getCurrentMass s = baseMass * (1 - s.plasmaPower * massReduction) ∧
    (updateMass s).bodyMass = getCurrentMass s ∧
    (s.plasmaPower = t.plasmaPower →
      getCurrentMass s = getCurrentMass t ∧
        (updateMass s).bodyMass = (updateMass t).bodyMass) := by
  refine ⟨rfl, rfl, fun h => ?_⟩
  constructor <;> simp [getCurrentMass, updateMass, h]

/-- Witness for C4: two states with equal plasmaPower but different heat,
flags and history report the same mass. -/
theorem c4_mass_pure_witness :
    getCurrentMass { initState with currentHeat := 77, isActive := true } =
      getCurrentMass initState :=
  ((c4_mass_pure { initState with currentHeat := 77, isActive := true } initState).2.2 rfl).1

/-! ### Claim C9: Kalman filter update -/

/-- Claim C9: one sensor-fusion update first predicts
`position += velocity * dt` on each axis (with the fixed dt = 0.016), then
corrects `position += k * (measurement - position)` with the fixed gain
`k = Q / (Q + R)`, and never writes the velocity components. -/
theorem c9_kalman_update (s : KalmanState) (alpha beta gamma : ℚ) :
    (updateKalmanFilter s alpha beta gamma).x =
        (s.x + s.vx * (16 / 1000)) +
          (kalmanQ / (kalmanQ + kalmanR)) * (alpha - (s.x + s.vx * (16 / 1000))) ∧
    (updateKalmanFilter s alpha beta gamma).y =
        (s.y + s.vy * (16 / 1000)) +
          (kalmanQ / (kalmanQ + kalmanR)) * (beta - (s.y + s.vy * (16 / 1000))) ∧
    (updateKalmanFilter s alpha beta gamma).z =
        (s.z + s.vz * (16 / 1000)) +
          (kalmanQ / (kalmanQ + kalmanR)) * (gamma - (s.z + s.vz * (16 / 1000))) ∧
    (updateKalmanFilter s alpha beta gamma).vx = s.vx ∧
    (updateKalmanFilter s alpha beta gamma).vy = s.vy ∧
    (updateKalmanFilter s alpha beta gamma).vz = s.vz :=
  ⟨rfl, rfl, rfl, rfl, rfl, rfl⟩

/-! ### Claim C7: emergency shutdown -/

lemma update_zero_inv (s : AGState) (dt : ℚ)
    (hp : s.plasmaPower = 0) (ht : s.targetPlasmaPower = 0) :
    (update s dt).plasmaPower = 0 ∧ (update s dt).targetPlasmaPower = 0 := by
  constructor
  · rw [update_power, updatePlasmaPower_power, hp, ht]
    norm_num
  · rw [update_target, ht]
    split <;> norm_num

lemma foldl_update_zero (dts : List ℚ) :
    ∀ s : AGState, s.plasmaPower = 0 → s.targetPlasmaPower = 0 →
      (dts.foldl update s).plasmaPower = 0 ∧ (dts.foldl update s).targetPlasmaPower = 0 := by
  induction dts with
  | nil => exact fun s hp ht => ⟨hp, ht⟩
  | cons d rest ih =>
    intro s hp ht
    have h := update_zero_inv s d hp ht
    exact ih (update s d) h.1 h.2

/-- Claim C7: `emergencyShutdown()` from any state immediately yields
plasmaPower = 0, targetPlasmaPower = 0, both flags cleared and the body
mass reset to baseMass, and plasmaPower stays 0 across any further sequence
of ticks (no further ramp unless activate() is called again). -/
theorem c7_emergency_shutdown (s : AGState) (dts : List ℚ) :
    (emergencyShutdown s).plasmaPower = 0 ∧
    (emergencyShutdown s).targetPlasmaPower = 0 ∧
    (emergencyShutdown s).isActive = false ∧
    (emergencyShutdown s).isActivating = false ∧
    (emergencyShutdown s).bodyMass = baseMass ∧
    (dts.foldl update (emergencyShutdown s)).plasmaPower = 0 :=
  ⟨rfl, rfl, rfl, rfl, rfl, (foldl_update_zero dts _ rfl rfl).1⟩

/-! ### Claim C10: emergencyShutdown leaves heat untouched -/

/-- Claim C10: `emergencyShutdown()` leaves currentHeat (and the power
consumption telemetry) unchanged, so with heat still above the throttle
threshold a subsequent activate() is throttled on its very first tick. -/
theorem c10_shutdown_heat_frame (s : AGState) :
    (emergencyShutdown s).currentHeat = s.currentHeat ∧
    (emergencyShutdown s).powerConsumption = s.powerConsumption ∧
    (maxHeat * (9 / 10) < s.currentHeat → s.currentHeat ≤ maxHeat →
      (update (activate (emergencyShutdown s)) 0).targetPlasmaPower = 95 / 100) := by
  refine ⟨rfl, rfl, fun hlo hhi => ?_⟩
  have hact : activate (emergencyShutdown s) =
      { emergencyShutdown s with isActivating := true, targetPlasmaPower := 1 } := by
    unfold activate emergencyShutdown
    simp
  rw [update_target, hact]
  have hheat : (update { emergencyShutdown s with isActivating := true, targetPlasmaPower := 1 } 0).currentHeat = s.currentHeat := by
    unfold update
    rw [updateThermal_heat, updateMass_heat, updatePlasmaPower_heat, updateMass_power,
      updatePlasmaPower_power]
    have h0 : (0 : ℚ) ≤ s.currentHeat := le_trans (by norm_num [maxHeat]) (le_of_lt hlo)
    show max 0 (min maxHeat ((emergencyShutdown s).currentHeat + _ * _ * 50 * 0 -
      ((emergencyShutdown s).currentHeat + _ * _ * 50 * 0) * (1 / 10) * 0)) = s.currentHeat
    have hsh : (emergencyShutdown s).currentHeat = s.currentHeat := rfl
    rw [hsh]
    rw [mul_zero, mul_zero, add_zero, sub_zero, min_eq_right hhi, max_eq_right h0]
  rw [hheat, if_pos hlo]
  norm_num

/-- Witness for C10 at a concrete hot state. -/
theorem c10_shutdown_heat_frame_witness :
    (update (activate (emergencyShutdown { initState with currentHeat := 95 })) 0).targetPlasmaPower = 95 / 100 :=
  (c10_shutdown_heat_frame { initState with currentHeat := 95 }).2.2
    (by norm_num [initState, maxHeat]) (by norm_num [initState, maxHeat])

/-! ### Claim C5: thermal throttling -/

/-- An idle state carrying heat at 0.95 * maxHeat (target power 0). -/
def hotIdleState : AGState := { initState with currentHeat := 95 }

/-- Claim C5 counterexample: at heat 0.95 * maxHeat with target power 0,
a tick holds the heat at 95 (dt = 0) and engages the throttle, yet
targetPlasmaPower does not strictly decrease (0 * 0.95 = 0), refuting the
claim that it strictly decreases on each such tick. -/
theorem c5_throttle_counterexample :
    (update hotIdleState 0).currentHeat = hotIdleState.currentHeat ∧
    maxHeat * (9 / 10) < (update hotIdleState 0).currentHeat ∧
    ¬ (update hotIdleState 0).targetPlasmaPower < hotIdleState.targetPlasmaPower := by
  norm_num [update, updatePlasmaPower, updateMass, updateThermalManagement, hotIdleState,
    initState, maxHeat, activationTime, baseMass, massReduction, max_def, min_def]

/-- Claim C5, amended: on every tick whose thermal update ends with
currentHeat above 0.9 * maxHeat, the controller multiplies
targetPlasmaPower by 0.95; this is a strict decrease whenever the target
power is positive (but not when it is already 0). -/
theorem c5_throttle_amended (s : AGState) (dt : ℚ)
    (h : maxHeat * (9 / 10) < (update s dt).currentHeat) :
    (update s dt).targetPlasmaPower = s.targetPlasmaPower * (95 / 100) ∧
    (0 < s.targetPlasmaPower →
      (update s dt).targetPlasmaPower < s.targetPlasmaPower) := by
  have htar : (update s dt).targetPlasmaPower = s.targetPlasmaPower * (95 / 100) := by
    rw [update_target, if_pos h]
  refine ⟨htar, fun hpos => ?_⟩
  rw [htar]
  calc s.targetPlasmaPower * (95 / 100) < s.targetPlasmaPower * 1 :=
        mul_lt_mul_of_pos_left (by norm_num) hpos
    _ = s.targetPlasmaPower := mul_one _

/-- Witness for C5 at a concrete hot state with positive target power. -/
theorem c5_throttle_witness :
    (update { initState with targetPlasmaPower := 1, currentHeat := 95 } 0).targetPlasmaPower =
      (1 : ℚ) * (95 / 100) :=
  (c5_throttle_amended { initState with targetPlasmaPower := 1, currentHeat := 95 } 0
    (by norm_num [update, updatePlasmaPower, updateMass, updateThermalManagement,
      initState, maxHeat, activationTime, baseMass, massReduction, max_def, min_def])).1

/-! ### Claim C1: the 3-second activation run -/

/-- Claim C1 counterexample: after activate() and 3.0 s of 0.1 s ticks with
activationTimeSeconds = 3.0, isActive is still false and plasmaPower is
below 0.7 — not approximately 0.95 as claimed (the ramp covers one time
constant, not three). -/
theorem c1_activation_counterexample :
    activationRun.isActive = false ∧ activationRun.plasmaPower < 7 / 10 := by
  norm_num [activationRun, activationTicks, List.replicate, update, updatePlasmaPower,
    updateMass, updateThermalManagement, activate, initState, maxHeat, activationTime,
    baseMass, massReduction, max_def, min_def]

/-- Claim C1, amended: the run leaves plasmaPower exactly
1 - (29/30)^30 ≈ 0.638 (the discrete counterpart of 1 - e⁻¹, since 3 s is
one time constant), with the system still activating and not yet active. -/
theorem c1_activation_amended :
    activationRun.plasmaPower = 1 - (29 / 30) ^ 30 ∧
    63 / 100 < activationRun.plasmaPower ∧
    activationRun.plasmaPower < 64 / 100 ∧
    activationRun.isActivating = true ∧
    activationRun.isActive = false := by
  norm_num [activationRun, activationTicks, List.replicate, update, updatePlasmaPower,
    updateMass, updateThermalManagement, activate, initState, maxHeat, activationTime,
    baseMass, massReduction, max_def, min_def]

/-! ### Claim C2: power ramp monotonicity and exponential convergence -/

lemma ramp_step_mono (s : AGState) (dt : ℚ) (htar : s.targetPlasmaPower = 1)
    (h0 : 0 ≤ s.plasmaPower) (h1 : s.plasmaPower ≤ 1) (hdt : 0 ≤ dt) :
    s.plasmaPower ≤ (updatePlasmaPower s dt).plasmaPower ∧
    (updatePlasmaPower s dt).plasmaPower ≤ 1 ∧
    0 ≤ (updatePlasmaPower s dt).plasmaPower := by
  rw [updatePlasmaPower_power, htar]
  have hstep : 0 ≤ (1 - s.plasmaPower) * (1 / activationTime) * dt :=
    mul_nonneg (mul_nonneg (by linarith) (by norm_num [activationTime])) hdt
  have hpu : s.plasmaPower ≤ s.plasmaPower + (1 - s.plasmaPower) * (1 / activationTime) * dt := by
    linarith
  refine ⟨?_, max_le (by norm_num) (min_le_left _ _), le_max_left _ _⟩
  exact le_trans (le_min h1 hpu) (le_max_right _ _)

lemma ramp_fold_mono (dts : List ℚ) :
    ∀ s : AGState, s.targetPlasmaPower = 1 → 0 ≤ s.plasmaPower → s.plasmaPower ≤ 1 →
      (∀ d ∈ dts, 0 ≤ d) →
      s.plasmaPower ≤ (dts.foldl updatePlasmaPower s).plasmaPower ∧
      (dts.foldl updatePlasmaPower s).plasmaPower ≤ 1 ∧
      0 ≤ (dts.foldl updatePlasmaPower s).plasmaPower := by
  induction dts with
  | nil => exact fun s _ h0 h1 _ => ⟨le_refl _, h1, h0⟩
  | cons d rest ih =>
    intro s htar h0 h1 hd
    have hstep := ramp_step_mono s d htar h0 h1 (hd d (List.mem_cons_self d rest))
    have htar1 : (updatePlasmaPower s d).targetPlasmaPower = 1 := by
      rw [updatePlasmaPower_target, htar]
    have hrest := ih (updatePlasmaPower s d) htar1 hstep.2.2 hstep.2.1
      (fun e he => hd e (List.mem_cons_of_mem d he))
    exact ⟨le_trans hstep.1 hrest.1, hrest.2.1, hrest.2.2⟩

/-- Pure real-number step bound for the clamped first-order ramp: the
remaining distance to 1 contracts at least as fast as `exp (-dt/3)`,
strictly so on a positive step away from saturation. -/
lemma real_clamp_exp (P D : ℝ) (h0 : 0 ≤ P) (h1 : P ≤ 1) (hD : 0 ≤ D) :
    1 - max 0 (min 1 (P + (1 - P) * (1 / 3) * D)) ≤ (1 - P) * Real.exp (-(D / 3)) ∧
    (0 < D → P < 1 →
      1 - max 0 (min 1 (P + (1 - P) * (1 / 3) * D)) < (1 - P) * Real.exp (-(D / 3))) := by
  have hu : P ≤ P + (1 - P) * (1 / 3) * D := by nlinarith
  have hmin0 : 0 ≤ min 1 (P + (1 - P) * (1 / 3) * D) := le_min (by norm_num) (le_trans h0 hu)
  rw [max_eq_right hmin0]
  have hmm : 1 - min 1 (P + (1 - P) * (1 / 3) * D) =
      max 0 (1 - (P + (1 - P) * (1 / 3) * D)) := by
    rcases le_total 1 (P + (1 - P) * (1 / 3) * D) with h | h
    · rw [min_eq_left h, max_eq_left (by linarith)]
      norm_num
    · rw [min_eq_right h, max_eq_right (by linarith)]
  rw [hmm, show 1 - (P + (1 - P) * (1 / 3) * D) = (1 - P) * (1 - D / 3) by ring]
  have hexp : (1 : ℝ) - D / 3 ≤ Real.exp (-(D / 3)) := by
    have := Real.add_one_le_exp (-(D / 3))
    linarith
  have hpos : 0 < Real.exp (-(D / 3)) := Real.exp_pos _
  constructor
  · exact max_le (mul_nonneg (by linarith) (le_of_lt hpos))
      (mul_le_mul_of_nonneg_left hexp (by linarith))
  · intro hDpos hP1
    have hexps : (1 : ℝ) - D / 3 < Real.exp (-(D / 3)) := by
      have hne : -(D / 3) ≠ 0 := by
        intro h
        have : D = 0 := by linarith [neg_eq_zero.mp h]
        linarith
      have := Real.add_one_lt_exp hne
      linarith
    have h1P : 0 < 1 - P := by linarith
    exact max_lt (mul_pos h1P hpos) (mul_lt_mul_of_pos_left hexps h1P)

lemma ramp_step_exp (s : AGState) (dt : ℚ) (htar : s.targetPlasmaPower = 1)
    (h0 : 0 ≤ s.plasmaPower) (h1 : s.plasmaPower ≤ 1) (hdt : 0 ≤ dt) :
    (1 : ℝ) - ((updatePlasmaPower s dt).plasmaPower : ℝ) ≤
      (1 - (s.plasmaPower : ℝ)) * Real.exp (-((dt : ℝ) / 3)) ∧
    (0 < dt → s.plasmaPower < 1 →
      (1 : ℝ) - ((updatePlasmaPower s dt).plasmaPower : ℝ) <
        (1 - (s.plasmaPower : ℝ)) * Real.exp (-((dt : ℝ) / 3))) := by
  have hq := updatePlasmaPower_power s dt
  rw [htar] at hq
  have hP : ((updatePlasmaPower s dt).plasmaPower : ℝ) =
      max 0 (min 1 ((s.plasmaPower : ℝ) +
        (1 - (s.plasmaPower : ℝ)) * (1 / 3) * (dt : ℝ))) := by
    rw [hq]
    push_cast [activationTime]
    ring_nf
  rw [hP]
  have hmain := real_clamp_exp (s.plasmaPower : ℝ) (dt : ℝ)
    (by exact_mod_cast h0) (by exact_mod_cast h1) (by exact_mod_cast hdt)
  exact ⟨hmain.1, fun hdt1 hp1 =>
    hmain.2 (by exact_mod_cast hdt1) (by exact_mod_cast hp1)⟩

lemma ramp_fold_one (dts : List ℚ) :
    ∀ s : AGState, s.targetPlasmaPower = 1 → s.plasmaPower = 1 →
      (dts.foldl updatePlasmaPower s).plasmaPower = 1 := by
  induction dts with
  | nil => exact fun s _ hp => hp
  | cons d rest ih =>
    intro s htar hp
    have hp1 : (updatePlasmaPower s d).plasmaPower = 1 := by
      rw [updatePlasmaPower_power, htar, hp]
      norm_num
    exact ih _ (by rw [updatePlasmaPower_target, htar]) hp1

lemma ramp_fold_exp (dts : List ℚ) :
    ∀ s : AGState, s.targetPlasmaPower = 1 → 0 ≤ s.plasmaPower → s.plasmaPower ≤ 1 →
      (∀ d ∈ dts, 0 ≤ d) →
      ((1 : ℝ) - ((dts.foldl updatePlasmaPower s).plasmaPower : ℝ) ≤
        (1 - (s.plasmaPower : ℝ)) * Real.exp (-((dts.sum : ℝ) / 3)) ∧
      ((∃ d ∈ dts, 0 < d) →
        (1 : ℝ) - ((dts.foldl updatePlasmaPower s).plasmaPower : ℝ) <
          (1 - (s.plasmaPower : ℝ)) * Real.exp (-((dts.sum : ℝ) / 3)) ∨
        (dts.foldl updatePlasmaPower s).plasmaPower = 1)) := by
  induction dts with
  | nil =>
    intro s _ _ _ _
    refine ⟨?_, ?_⟩
    · simp [Real.exp_zero]
    · rintro ⟨d, hd, _⟩
      exact absurd hd (List.not_mem_nil d)
  | cons d rest ih =>
    intro s htar h0 h1 hd
    have hdpos : 0 ≤ d := hd d (List.mem_cons_self d rest)
    have hstep := ramp_step_exp s d htar h0 h1 hdpos
    have hmono := ramp_step_mono s d htar h0 h1 hdpos
    have htar1 : (updatePlasmaPower s d).targetPlasmaPower = 1 := by
      rw [updatePlasmaPower_target, htar]
    have hrest := ih (updatePlasmaPower s d) htar1 hmono.2.2 hmono.2.1
      (fun e he => hd e (List.mem_cons_of_mem d he))
    have hsum : ((d :: rest).sum : ℝ) = (d : ℝ) + (rest.sum : ℝ) := by
      push_cast [List.sum_cons]
      ring
    have hexpsplit : Real.exp (-(((d :: rest).sum : ℝ) / 3)) =
        Real.exp (-((d : ℝ) / 3)) * Real.exp (-((rest.sum : ℝ) / 3)) := by
      rw [← Real.exp_add, hsum]
      ring_nf
    have hfold : (d :: rest).foldl updatePlasmaPower s =
        rest.foldl updatePlasmaPower (updatePlasmaPower s d) := rfl
    have hepos : 0 < Real.exp (-((rest.sum : ℝ) / 3)) := Real.exp_pos _
    constructor
    · rw [hfold, hexpsplit]
      calc (1 : ℝ) - ((rest.foldl updatePlasmaPower (updatePlasmaPower s d)).plasmaPower : ℝ) ≤
            (1 - ((updatePlasmaPower s d).plasmaPower : ℝ)) *
              Real.exp (-((rest.sum : ℝ) / 3)) := hrest.1
        _ ≤ ((1 - (s.plasmaPower : ℝ)) * Real.exp (-((d : ℝ) / 3))) *
              Real.exp (-((rest.sum : ℝ) / 3)) :=
            mul_le_mul_of_nonneg_right hstep.1 (le_of_lt hepos)
        _ = (1 - (s.plasmaPower : ℝ)) *
              (Real.exp (-((d : ℝ) / 3)) * Real.exp (-((rest.sum : ℝ) / 3))) := by ring
    · rintro ⟨e, he, hepos2⟩
      rw [hfold]
      rcases List.mem_cons.mp he with heq | hin
      · by_cases hP1 : s.plasmaPower = 1
        · right
          have hp1 : (updatePlasmaPower s d).plasmaPower = 1 := by
            rw [updatePlasmaPower_power, htar, hP1]
            norm_num
          exact ramp_fold_one rest _ htar1 hp1
        · left
          have hPlt : s.plasmaPower < 1 := lt_of_le_of_ne h1 hP1
          have hdp : (0 : ℚ) < d := heq ▸ hepos2
          have hstrict := hstep.2 hdp hPlt
          rw [hexpsplit]
          calc (1 : ℝ) - ((rest.foldl updatePlasmaPower (updatePlasmaPower s d)).plasmaPower : ℝ) ≤
                (1 - ((updatePlasmaPower s d).plasmaPower : ℝ)) *
                  Real.exp (-((rest.sum : ℝ) / 3)) := hrest.1
            _ < ((1 - (s.plasmaPower : ℝ)) * Real.exp (-((d : ℝ) / 3))) *
                  Real.exp (-((rest.sum : ℝ) / 3)) :=
                mul_lt_mul_of_pos_right hstrict hepos
            _ = (1 - (s.plasmaPower : ℝ)) *
                  (Real.exp (-((d : ℝ) / 3)) * Real.exp (-((rest.sum : ℝ) / 3))) := by ring
      · rcases hrest.2 ⟨e, hin, hepos2⟩ with hlt | hone
        · left
          rw [hexpsplit]
          calc (1 : ℝ) - ((rest.foldl updatePlasmaPower (updatePlasmaPower s d)).plasmaPower : ℝ) <
                (1 - ((updatePlasmaPower s d).plasmaPower : ℝ)) *
                  Real.exp (-((rest.sum : ℝ) / 3)) := hlt
            _ ≤ ((1 - (s.plasmaPower : ℝ)) * Real.exp (-((d : ℝ) / 3))) *
                  Real.exp (-((rest.sum : ℝ) / 3)) :=
                mul_le_mul_of_nonneg_right hstep.1 (le_of_lt hepos)
            _ = (1 - (s.plasmaPower : ℝ)) *
                  (Real.exp (-((d : ℝ) / 3)) * Real.exp (-((rest.sum : ℝ) / 3))) := by ring
        · right
          exact hone

/-- Claim C2: with the target held at 1, each tick follows the clamped
first-order recurrence, plasmaPower is monotonically non-decreasing and
never exceeds 1, and from plasmaPower 0 it passes strictly above 0.95 once
the summed tick times reach activationTime * ln 20. -/
theorem c2_power_ramp (dts : List ℚ) (s : AGState)
    (htar : s.targetPlasmaPower = 1) (h0 : 0 ≤ s.plasmaPower) (h1 : s.plasmaPower ≤ 1)
    (hdts : ∀ d ∈ dts, 0 ≤ d) :
    (∀ dt : ℚ, 0 ≤ dt →
      (updatePlasmaPower s dt).plasmaPower =
          max 0 (min 1 (s.plasmaPower + (1 - s.plasmaPower) * (1 / activationTime) * dt)) ∧
        s.plasmaPower ≤ (updatePlasmaPower s dt).plasmaPower) ∧
    s.plasmaPower ≤ (dts.foldl updatePlasmaPower s).plasmaPower ∧
    (dts.foldl updatePlasmaPower s).plasmaPower ≤ 1 ∧
    (s.plasmaPower = 0 → (activationTime : ℝ) * Real.log 20 ≤ ((dts.sum : ℚ) : ℝ) →
      (95 / 100 : ℝ) < (((dts.foldl updatePlasmaPower s).plasmaPower : ℚ) : ℝ)) := by
  have hmono := ramp_fold_mono dts s htar h0 h1 hdts
  refine ⟨fun dt hdt => ⟨by rw [updatePlasmaPower_power, htar],
    (ramp_step_mono s dt htar h0 h1 hdt).1⟩, hmono.1, hmono.2.1, fun hp0 hsum => ?_⟩
  have hlog : 0 < Real.log 20 := Real.log_pos (by norm_num)
  have hat : (activationTime : ℝ) = 3 := by norm_num [activationTime]
  have hex : ∃ d ∈ dts, 0 < d := by
    by_contra hno
    push_neg at hno
    have hz : ∀ d ∈ dts, d = 0 := fun d hd => le_antisymm (hno d hd) (hdts d hd)
    have hzero : dts.sum = 0 := List.sum_eq_zero hz
    rw [hzero, hat] at hsum
    push_cast at hsum
    linarith
  have hfold := ramp_fold_exp dts s htar h0 h1 hdts
  rcases hfold.2 hex with hlt | hone
  · rw [hp0] at hlt
    simp only [Rat.cast_zero] at hlt
    have hS3 : Real.log 20 ≤ ((dts.sum : ℚ) : ℝ) / 3 := by
      rw [hat] at hsum
      linarith
    have hmonoexp : Real.exp (-(((dts.sum : ℚ) : ℝ) / 3)) ≤ Real.exp (-Real.log 20) :=
      Real.exp_le_exp.mpr (by linarith)
    have h20 : Real.exp (-Real.log 20) = 1 / 20 := by
      rw [Real.exp_neg, Real.exp_log (by norm_num : (0 : ℝ) < 20)]
      norm_num
    rw [h20] at hmonoexp
    have hfinal : (1 : ℝ) - (((dts.foldl updatePlasmaPower s).plasmaPower : ℚ) : ℝ) < 1 / 20 := by
      calc (1 : ℝ) - (((dts.foldl updatePlasmaPower s).plasmaPower : ℚ) : ℝ) <
            (1 - 0) * Real.exp (-(((dts.sum : ℚ) : ℝ) / 3)) := hlt
        _ = Real.exp (-(((dts.sum : ℚ) : ℝ) / 3)) := by ring
        _ ≤ 1 / 20 := hmonoexp
    linarith
  · rw [hone]
    norm_num

/-- Witness for C2: three ticks of 3 s each (total 9 s ≥ 3 ln 20 ≈ 8.987 s)
from plasmaPower 0 with target 1. -/
theorem c2_power_ramp_witness :
    (95 / 100 : ℝ) <
      (((([3, 3, 3] : List ℚ).foldl updatePlasmaPower
        { initState with targetPlasmaPower := 1 }).plasmaPower : ℚ) : ℝ) := by
  have hlog3 : Real.log 20 ≤ 3 := by
    have h20 : (20 : ℝ) < Real.exp 3 := by
      have he : (2.7182818283 : ℝ) < Real.exp 1 := Real.exp_one_gt_d9
      have h3 : (2.7182818283 : ℝ) ^ 3 < (Real.exp 1) ^ 3 :=
        pow_lt_pow_left he (by norm_num) (by norm_num)
      have hE : (Real.exp 1) ^ 3 = Real.exp 3 := by
        rw [← Real.exp_nat_mul]
        norm_num
      calc (20 : ℝ) < (2.7182818283 : ℝ) ^ 3 := by norm_num
        _ < (Real.exp 1) ^ 3 := h3
        _ = Real.exp 3 := hE
    have := (Real.log_lt_iff_lt_exp (by norm_num : (0 : ℝ) < 20)).mpr h20
    linarith
  apply (c2_power_ramp [3, 3, 3] { initState with targetPlasmaPower := 1 } rfl
    (by norm_num [initState]) (by norm_num [initState])
    (by intro d hd; simp at hd; subst hd; norm_num)).2.2.2 rfl
  have hsum : (([3, 3, 3] : List ℚ).sum : ℝ) = 9 := by norm_num
  rw [hsum, show ((activationTime : ℚ) : ℝ) = 3 by norm_num [activationTime]]
  linarith

/-! ### Claim C8: workload-model learning ratchet -/

lemma updatePINN_lr (s : PinnState) (dt i : ℚ) :
    (updatePINN s dt i).learningRate = s.learningRate := by
  unfold updatePINN
  dsimp only
  split <;> rfl

lemma updatePINN_stress (s : PinnState) (dt i : ℚ) :
    (updatePINN s dt i).stressLevel =
      s.stressLevel + (min (i * (1 / 10)) 1 - s.stressLevel) * dt * 2 := by
  unfold updatePINN
  dsimp only
  split <;> rfl

lemma updatePINN_bp (s : PinnState) (dt i : ℚ) :
    (updatePINN s dt i).baselinePerformance =
      if s.stressLevel + (min (i * (1 / 10)) 1 - s.stressLevel) * dt * 2 < 1 / 2 then
        min (s.baselinePerformance + s.learningRate * dt) (12 / 10)
      else s.baselinePerformance := by
  unfold updatePINN
  dsimp only
  split <;> rfl

lemma pinn_step (s : PinnState) (dt i : ℚ) (hdt : 0 ≤ dt) (hlr : 0 ≤ s.learningRate)
    (hbp : s.baselinePerformance ≤ 12 / 10) :
    s.baselinePerformance ≤ (updatePINN s dt i).baselinePerformance ∧
    (updatePINN s dt i).baselinePerformance ≤ 12 / 10 ∧
    (updatePINN s dt i).learningRate = s.learningRate ∧
    ((1 / 2 : ℚ) ≤ (updatePINN s dt i).stressLevel →
      (updatePINN s dt i).baselinePerformance = s.baselinePerformance) := by
  rw [updatePINN_bp]
  by_cases hc : s.stressLevel + (min (i * (1 / 10)) 1 - s.stressLevel) * dt * 2 < 1 / 2
  · rw [if_pos hc]
    refine ⟨le_min (by nlinarith) hbp, min_le_right _ _, updatePINN_lr s dt i, fun h => ?_⟩
    rw [updatePINN_stress] at h
    linarith
  · rw [if_neg hc]
    exact ⟨le_refl _, hbp, updatePINN_lr s dt i, fun _ => rfl⟩

lemma pinn_run_inv (ticks : List (ℚ × ℚ)) :
    ∀ s : PinnState, (∀ t ∈ ticks, 0 ≤ t.1) → 0 ≤ s.learningRate →
      s.baselinePerformance ≤ 12 / 10 →
      s.baselinePerformance ≤ (pinnRun s ticks).baselinePerformance ∧
      (pinnRun s ticks).baselinePerformance ≤ 12 / 10 ∧
      (pinnRun s ticks).learningRate = s.learningRate := by
  induction ticks with
  | nil => exact fun s _ _ hbp => ⟨le_refl _, hbp, rfl⟩
  | cons t rest ih =>
    intro s hticks hlr hbp
    have hstep := pinn_step s t.1 t.2 (hticks t (List.mem_cons_self t rest)) hlr hbp
    have hrest := ih (updatePINN s t.1 t.2)
      (fun e he => hticks e (List.mem_cons_of_mem t he))
      (hstep.2.2.1 ▸ hlr) hstep.2.1
    have hfold : pinnRun s (t :: rest) = pinnRun (updatePINN s t.1 t.2) rest := rfl
    rw [hfold]
    exact ⟨le_trans hstep.1 hrest.1, hrest.2.1, by rw [hrest.2.2, hstep.2.2.1]⟩

lemma pinn_zero_run (dts : List ℚ) :
    ∀ s : PinnState, s.stressLevel = 0 → (∀ d ∈ dts, 0 ≤ d) →
      s.baselinePerformance + dts.sum * s.learningRate ≤ 12 / 10 → 0 ≤ s.learningRate →
      (pinnRun s (dts.map fun d => (d, 0))).baselinePerformance =
          s.baselinePerformance + dts.sum * s.learningRate ∧
        (pinnRun s (dts.map fun d => (d, 0))).stressLevel = 0 := by
  induction dts with
  | nil =>
    intro s h0 _ _ _
    constructor
    · simp [pinnRun]
    · simpa [pinnRun] using h0
  | cons d rest ih =>
    intro s h0 hd hcap hlr
    have hrest0 : 0 ≤ rest.sum := List.sum_nonneg (fun e he => hd e (List.mem_cons_of_mem d he))
    have hd0 : 0 ≤ d := hd d (List.mem_cons_self d rest)
    have hstress : (updatePINN s d 0).stressLevel = 0 := by
      rw [updatePINN_stress, h0]
      norm_num
    have hsum : (d :: rest).sum = d + rest.sum := List.sum_cons
    have hbp : (updatePINN s d 0).baselinePerformance =
        s.baselinePerformance + s.learningRate * d := by
      rw [updatePINN_bp, h0]
      rw [if_pos (by norm_num)]
      apply min_eq_left
      rw [hsum] at hcap
      nlinarith
    have hlr1 : (updatePINN s d 0).learningRate = s.learningRate := updatePINN_lr s d 0
    have hfold : pinnRun s ((d :: rest).map fun e => (e, 0)) =
        pinnRun (updatePINN s d 0) (rest.map fun e => (e, 0)) := rfl
    have hres := ih (updatePINN s d 0) hstress
      (fun e he => hd e (List.mem_cons_of_mem d he))
      (by rw [hbp, hlr1]; rw [hsum] at hcap; nlinarith) (hlr1 ▸ hlr)
    rw [hfold, hres.1, hbp, hlr1, hsum]
    refine ⟨by ring, hres.2⟩

/-- Claim C8: across every tick sequence with nonnegative dt,
baselinePerformance never decreases and never exceeds the 1.2 cap, a tick
leaves it unchanged whenever the updated stress is at least 0.5, and with
stress held at 0 (zero input intensity) over ticks summing to 10 s it grows
by exactly learningRate * 10 = 0.01. -/
theorem c8_pinn_ratchet :
    (∀ (s : PinnState) (dt i : ℚ), 0 ≤ dt → 0 ≤ s.learningRate →
      s.baselinePerformance ≤ 12 / 10 →
      s.baselinePerformance ≤ (updatePINN s dt i).baselinePerformance ∧
      (updatePINN s dt i).baselinePerformance ≤ 12 / 10 ∧
      ((1 / 2 : ℚ) ≤ (updatePINN s dt i).stressLevel →
        (updatePINN s dt i).baselinePerformance = s.baselinePerformance)) ∧
    (∀ ticks : List (ℚ × ℚ), (∀ t ∈ ticks, 0 ≤ t.1) →
      1 ≤ (pinnRun initPinn ticks).baselinePerformance ∧
      (pinnRun initPinn ticks).baselinePerformance ≤ 12 / 10) ∧
    (∀ dts : List ℚ, (∀ d ∈ dts, 0 ≤ d) → dts.sum = 10 →
      (pinnRun initPinn (dts.map fun d => (d, 0))).baselinePerformance = 101 / 100) := by
  refine ⟨?_, ?_, ?_⟩
  · intro s dt i hdt hlr hbp
    have h := pinn_step s dt i hdt hlr hbp
    exact ⟨h.1, h.2.1, h.2.2.2⟩
  · intro ticks hticks
    have h := pinn_run_inv ticks initPinn hticks (by norm_num [initPinn]) (by norm_num [initPinn])
    exact ⟨h.1, h.2.1⟩
  · intro dts hd hsum
    have h := pinn_zero_run dts initPinn rfl hd
      (by rw [hsum]; norm_num [initPinn]) (by norm_num [initPinn])
    rw [h.1, hsum]
    norm_num [initPinn]

/-- Witness for C8 at a single 10-second zero-intensity tick. -/
theorem c8_pinn_ratchet_witness :
    (pinnRun initPinn ([(10 : ℚ)].map fun d => (d, 0))).baselinePerformance = 101 / 100 :=
  c8_pinn_ratchet.2.2 [10] (by intro d hd; simp at hd; subst hd; norm_num) (by simp)

/-! ### Claim C6: stabilization torque clamp -/

lemma norm3_nonneg (v : ℝ × ℝ × ℝ) : 0 ≤ norm3 v := Real.sqrt_nonneg _

lemma norm3_scale (c : ℝ) (v : ℝ × ℝ × ℝ) :
    norm3 (c * v.1, c * v.2.1, c * v.2.2) = |c| * norm3 v := by
  unfold norm3
  dsimp only
  rw [show (c * v.1) ^ 2 + (c * v.2.1) ^ 2 + (c * v.2.2) ^ 2 =
      c ^ 2 * (v.1 ^ 2 + v.2.1 ^ 2 + v.2.2 ^ 2) by ring,
    Real.sqrt_mul (sq_nonneg c), Real.sqrt_sq_eq_abs]

lemma gyroClamp_cases (v : ℝ × ℝ × ℝ) :
    norm3 (gyroClampTorque v) ≤ gyroMaxTorque ∧
    ∃ c : ℝ, 0 < c ∧ c ≤ 1 ∧
      gyroClampTorque v = (c * v.1, c * v.2.1, c * v.2.2) := by
  by_cases hbig : gyroMaxTorque < norm3 v
  · have hclamp : gyroClampTorque v =
        (gyroMaxTorque / norm3 v * v.1, gyroMaxTorque / norm3 v * v.2.1,
          gyroMaxTorque / norm3 v * v.2.2) := by
      unfold gyroClampTorque
      rw [if_pos hbig]
    have hnpos : 0 < norm3 v := lt_trans (by norm_num [gyroMaxTorque]) hbig
    have hcpos : 0 < gyroMaxTorque / norm3 v :=
      div_pos (by norm_num [gyroMaxTorque]) hnpos
    have hnorm : norm3 (gyroClampTorque v) = gyroMaxTorque := by
      rw [hclamp, norm3_scale, abs_of_pos hcpos, div_mul_cancel₀ _ (ne_of_gt hnpos)]
    exact ⟨le_of_eq hnorm,
      ⟨gyroMaxTorque / norm3 v, hcpos, (div_le_one hnpos).mpr (le_of_lt hbig), hclamp⟩⟩
  · have hclamp : gyroClampTorque v = v := by
      unfold gyroClampTorque
      rw [if_neg hbig]
    refine ⟨by rw [hclamp]; exact not_lt.mp hbig, ⟨1, one_pos, le_refl 1, ?_⟩⟩
    rw [hclamp]
    simp

/-- Claim C6: for plasmaPower at least 0.1 (the guard of the source), the
stabilization torque is the per-axis counter-torque
`-angularVelocity * (plasmaPower * strength)` with the y axis at half
strength, and the clamped torque has Euclidean magnitude at most maxTorque
and is a positive uniform scaling of the raw torque (direction preserved). -/
theorem c6_torque_clamp (p wx wy wz : ℝ) (hp : 1 / 10 ≤ p) :
    gyroAppliedTorque p wx wy wz = gyroClampTorque (gyroRawTorque p wx wy wz) ∧
    gyroRawTorque p wx wy wz =
      (-wx * (p * gyroStrength), -wy * (p * gyroStrength) * (1 / 2),
        -wz * (p * gyroStrength)) ∧
    norm3 (gyroAppliedTorque p wx wy wz) ≤ gyroMaxTorque ∧
    ∃ c : ℝ, 0 < c ∧ c ≤ 1 ∧
      gyroAppliedTorque p wx wy wz =
        (c * (gyroRawTorque p wx wy wz).1, c * (gyroRawTorque p wx wy wz).2.1,
          c * (gyroRawTorque p wx wy wz).2.2) := by
  have happ : gyroAppliedTorque p wx wy wz = gyroClampTorque (gyroRawTorque p wx wy wz) := by
    unfold gyroAppliedTorque
    rw [if_neg (not_lt.mpr hp)]
  have hmain := gyroClamp_cases (gyroRawTorque p wx wy wz)
  exact ⟨happ, rfl, by rw [happ]; exact hmain.1, by rw [happ]; exact hmain.2⟩

/-- Witness for C6 at plasmaPower 0.5 and a large roll rate. -/
theorem c6_torque_clamp_witness :
    norm3 (gyroAppliedTorque (1 / 2) 30000 0 0) ≤ gyroMaxTorque :=
  (c6_torque_clamp (1 / 2) 30000 0 0 (by norm_num)).2.2.1

end ProjectManta
